import Mathlib

/-!
Verification development for the twitter-scraper harvest pipeline.

The definitions below are a shallow embedding of the two source files:
  * `src/library/scraper.go` (package twitterscraper): the cursor store of
    the `Scraper` object (`SaveCursor`, `LoadCursor`, `LoadCursorsFromFile`).
  * `src/main.go` (package main): the call accounting (`APICallCounter`),
    the dedup tracker (`ThreadTracker`), account validation
    (`validateAccounts`), and the reconciliation loop of `main`
    (lines 404-551), embedded as a fold of a per-record `step` function
    over the list of records delivered by `scraper.GetTweets`.

Go maps with value defaults are embedded as total functions returning the
zero value for absent keys (Go map reads return the zero value for missing
keys); the external calls `scraper.GetTweet` (thread-detail fetch) and the
file system are passed in as explicit parameters. Counters are `uint64` in
the source; they count loop events bounded by the input length, so they are
embedded as `Nat`.
-/

namespace TwitterScrape

/-- `twitterscraper.Photo`: the only field the main program reads is `URL`. -/
structure Photo where
  URL : String
deriving DecidableEq, Repr

/-- `twitterscraper.Video`: the only field the main program reads is `URL`. -/
structure Video where
  URL : String
deriving DecidableEq, Repr

/-- A tweet in a nested position (`Tweet.Thread` member or `Tweet.QuotedStatus`).
The source's `Tweet` is recursive through `Thread []*Tweet` and
`QuotedStatus *Tweet`; the main program reads only one level of nesting, and
only these fields of a nested tweet, so the embedding flattens the recursion
at depth one. -/
structure SubTweet where
  ID : String
  Username : String
  Text : String
  Likes : Int
  Photos : List Photo
  Videos : List Video
  PermanentURL : String
deriving DecidableEq, Repr

/-- `twitterscraper.Tweet`, restricted to the fields `src/main.go` reads. -/
structure Tweet where
  ID : String
  ConversationID : String
  Username : String
  Text : String
  Likes : Int
  Replies : Int
  Views : Int
  URLs : List String
  Photos : List Photo
  Videos : List Video
  PermanentURL : String
  TimeParsed : String
  Timestamp : Int
  IsQuoted : Bool
  QuotedStatus : Option SubTweet
  IsSelfThread : Bool
  Thread : List SubTweet
deriving DecidableEq, Repr

/-- `twitterscraper.TweetResult`: one element of the `GetTweets` stream, a
`Tweet` plus an error indicator (`Error error`, `none` = nil). -/
structure TweetResult where
  Tweet : Tweet
  Error : Option String
deriving DecidableEq, Repr

/-- `main.TweetMetrics`. -/
structure TweetMetrics where
  Likes : Int
  Replies : Int
  Views : Int
deriving DecidableEq, Repr

/-- `main.ThreadTweet`: one member summary inside a thread output unit. -/
structure ThreadTweet where
  ID : String
  Text : String
  Likes : Int
  Photos : List String
  Videos : List String
deriving DecidableEq, Repr

/-- `main.QuotedTweet`: the quoted-record summary of an output unit. -/
structure QuotedTweet where
  ID : String
  UserName : String
  Text : String
  Photos : List String
  Videos : List String
  PermanentURL : String
deriving DecidableEq, Repr

/-- `main.TweetOutput`: one OutputUnit of the final output sequence.
`IsThreadStart = true` with a non-empty `ThreadTweets` is a ThreadUnit;
a unit built from a lone timeline record is a StandaloneUnit. -/
structure TweetOutput where
  ID : String
  UserName : String
  Text : String
  Metrics : TweetMetrics
  URLs : List String
  Photos : List String
  VideoURLs : List String
  PermanentURL : String
  TimeParsed : String
  Timestamp : Int
  IsQuoted : Bool
  QuotedTweet : Option QuotedTweet
  IsThreadStart : Bool
  ThreadTweets : List ThreadTweet
deriving DecidableEq, Repr

/-- `main.AccountInfo`: one credential pair of the session pool. -/
structure AccountInfo where
  AuthToken : String
  CSRFToken : String
deriving DecidableEq, Repr

/-- `main.APICallCounter`. `AccountCalls` is a Go map keyed by auth token;
reads of missing keys return 0, so it is embedded as a total function.
`TotalCalls` exists in the source but is never written. -/
structure APICallCounter where
  TimelineCalls : Nat
  ThreadCalls : Nat
  TotalCalls : Nat
  AccountCalls : String → Nat

/-- `main.NewAPICallCounter`: the source initialises each configured
account's entry to 0, which in the total-function embedding is the map that
is 0 everywhere. -/
def NewAPICallCounter (_accounts : List AccountInfo) : APICallCounter :=
  { TimelineCalls := 0, ThreadCalls := 0, TotalCalls := 0, AccountCalls := fun _ => 0 }

/-- `main.APICallCounter.IncrementAccount`: read the current value for the
token, store the value plus one. -/
def APICallCounter.IncrementAccount (c : APICallCounter) (authToken : String) : APICallCounter :=
  { c with AccountCalls := fun t =>
      if t = authToken then c.AccountCalls authToken + 1 else c.AccountCalls t }

/-- `main.ThreadTracker`: two Go maps `map[string]bool` (absent = false),
embedded as total boolean functions, plus the target user id. -/
structure ThreadTracker where
  processedThreads : String → Bool
  processedTweets : String → Bool
  targetUserID : String

/-- `main.NewThreadTracker`. -/
def NewThreadTracker (userID : String) : ThreadTracker :=
  { processedThreads := fun _ => false
    processedTweets := fun _ => false
    targetUserID := userID }

/-- `main.ThreadTracker.isProcessedTweet`. -/
def ThreadTracker.isProcessedTweet (t : ThreadTracker) (id : String) : Bool :=
  t.processedTweets id

/-- `main.ThreadTracker.isProcessedThread`. -/
def ThreadTracker.isProcessedThread (t : ThreadTracker) (id : String) : Bool :=
  t.processedThreads id

/-- `main.ThreadTracker.markTweetProcessed`. -/
def ThreadTracker.markTweetProcessed (t : ThreadTracker) (id : String) : ThreadTracker :=
  { t with processedTweets := fun x => if x = id then true else t.processedTweets x }

/-- `main.ThreadTracker.markThreadProcessed`: mark the fetched thread's root
id as a processed thread and a processed tweet, then mark every member of
`thread.Thread` as a processed tweet. -/
def ThreadTracker.markThreadProcessed (t : ThreadTracker) (thread : Tweet) : ThreadTracker :=
  let t1 : ThreadTracker :=
    { t with processedThreads := fun x => if x = thread.ID then true else t.processedThreads x }
  let t2 := t1.markTweetProcessed thread.ID
  thread.Thread.foldl (fun acc threadTweet => acc.markTweetProcessed threadTweet.ID) t2

/-- `main.extractMediaURLs`: the photo URLs, and the video URLs that are not
empty, of a tweet (the source accumulates with append; map/filter builds the
same lists). -/
def extractMediaURLs (tweet : Tweet) : List String × List String :=
  let photoURLs := tweet.Photos.map (fun photo => photo.URL)
  let videoURLs := (tweet.Videos.filter (fun video => video.URL ≠ "")).map (fun video => video.URL)
  (photoURLs, videoURLs)

/-- `main.extractMediaURLs` applied to a nested tweet (the source's single
generic function, at the flattened `SubTweet` type). -/
def extractMediaURLsSub (tweet : SubTweet) : List String × List String :=
  let photoURLs := tweet.Photos.map (fun photo => photo.URL)
  let videoURLs := (tweet.Videos.filter (fun video => video.URL ≠ "")).map (fun video => video.URL)
  (photoURLs, videoURLs)

/-- `main.validateAccounts`, the indexed loop over the account list: the
first account with a missing token yields the error naming its 1-based
index. -/
def validateAccountsFrom (accounts : List AccountInfo) (i : Nat) : Except String Unit :=
  match accounts with
  | [] => .ok ()
  | acc :: rest =>
    if acc.AuthToken = "" ∨ acc.CSRFToken = "" then
      .error ("missing tokens for account " ++ toString (i + 1))
    else validateAccountsFrom rest (i + 1)

/-- `main.validateAccounts` (src/main.go lines 261-272). -/
def validateAccounts (accounts : List AccountInfo) : Except String Unit :=
  if accounts.length = 0 then .error "no accounts provided"
  else validateAccountsFrom accounts 0

/-- The quoted-tweet closure inlined in both output-building sites of
`main` (lines 477-490 and 533-546): a summary when the tweet is quoted and
carries a quoted status, nil otherwise. -/
def mkQuotedTweet (t : Tweet) : Option QuotedTweet :=
  match t.QuotedStatus with
  | some q =>
    if t.IsQuoted then
      let media := extractMediaURLsSub q
      some { ID := q.ID, UserName := q.Username, Text := q.Text,
             Photos := media.1, Videos := media.2, PermanentURL := q.PermanentURL }
    else none
  | none => none

/-- The ThreadUnit built from a successfully fetched full thread
(src/main.go lines 457-502): the root's fields plus the ordered member
summaries. -/
def buildThreadOutput (fullThread : Tweet) : TweetOutput :=
  let media := extractMediaURLs fullThread
  { ID := fullThread.ID
    UserName := fullThread.Username
    Text := fullThread.Text
    Metrics := { Likes := fullThread.Likes, Replies := fullThread.Replies,
                 Views := fullThread.Views }
    URLs := fullThread.URLs
    Photos := media.1
    VideoURLs := media.2
    PermanentURL := fullThread.PermanentURL
    TimeParsed := fullThread.TimeParsed
    Timestamp := fullThread.Timestamp
    IsQuoted := fullThread.IsQuoted
    QuotedTweet := mkQuotedTweet fullThread
    IsThreadStart := fullThread.IsSelfThread
    ThreadTweets := fullThread.Thread.map (fun threadTweet =>
      let m := extractMediaURLsSub threadTweet
      { ID := threadTweet.ID, Text := threadTweet.Text, Likes := threadTweet.Likes,
        Photos := m.1, Videos := m.2 }) }

/-- The StandaloneUnit built from a lone timeline record
(src/main.go lines 514-547). -/
def buildStandaloneOutput (t : Tweet) : TweetOutput :=
  let media := extractMediaURLs t
  { ID := t.ID
    UserName := t.Username
    Text := t.Text
    Metrics := { Likes := t.Likes, Replies := t.Replies, Views := t.Views }
    URLs := t.URLs
    Photos := media.1
    VideoURLs := media.2
    PermanentURL := t.PermanentURL
    TimeParsed := t.TimeParsed
    Timestamp := t.Timestamp
    IsQuoted := t.IsQuoted
    QuotedTweet := mkQuotedTweet t
    IsThreadStart := t.IsSelfThread
    ThreadTweets := [] }

/-- The mutable state of the scraping loop in `main`: the call counter, the
dedup tracker, the accumulated output, the rotation index `currentAccount`,
and `lastCount` of the pagination accounting. -/
structure ScrapeState where
  counter : APICallCounter
  tracker : ThreadTracker
  outputTweets : List TweetOutput
  currentAccount : Nat
  lastCount : Nat

/-- The loop state just before the first iteration (src/main.go lines
404-411): fresh counter with the pre-loop `TimelineCalls` increment of line
410 applied, fresh tracker, empty output, account index 0, `lastCount` 0. -/
def initialState (accounts : List AccountInfo) (userID : String) : ScrapeState :=
  { counter := { NewAPICallCounter accounts with TimelineCalls := 1 }
    tracker := NewThreadTracker userID
    outputTweets := []
    currentAccount := 0
    lastCount := 0 }

/-- Pagination accounting at the top of each iteration (src/main.go lines
417-423): when the output count crosses a multiple of 20, count another
timeline page (the sleep is a pure delay with no state effect). -/
def paginationTick (σ : ScrapeState) : ScrapeState :=
  let currentCount := σ.outputTweets.length
  if currentCount / 20 > σ.lastCount / 20 then
    { σ with counter := { σ.counter with TimelineCalls := σ.counter.TimelineCalls + 1 }
             lastCount := currentCount }
  else σ

/-- The Go zero value for `AccountInfo`; `accounts[currentAccount]` in the
source is an in-bounds index whenever the validated account list is
non-empty, so the default is never read on those runs. -/
def defaultAccount : AccountInfo := { AuthToken := "", CSRFToken := "" }

/-- Account rotation before each request (src/main.go lines 425-432): pick
`accounts[currentAccount]`, attribute the call to it, advance the index
round-robin (`SetAuthToken` only mutates the HTTP client). -/
def rotateAccount (accounts : List AccountInfo) (σ : ScrapeState) : ScrapeState :=
  let account := accounts.getD σ.currentAccount defaultAccount
  { σ with counter := σ.counter.IncrementAccount account.AuthToken
           currentAccount := (σ.currentAccount + 1) % accounts.length }

/-- The per-record body of the scraping loop after rotation (src/main.go
lines 434-549). `fetchTweet` is the external `scraper.GetTweet` thread-detail
call. The source's `outputTweets = outputTweets[:len(outputTweets)-1]` at
line 505 panics in Go when the output is empty; the embedding returns an
error for that input, per the slice-bounds panic. -/
def handleRecord (fetchTweet : String → Except String Tweet)
    (σ : ScrapeState) (r : TweetResult) : Except String ScrapeState :=
  if r.Error.isSome then
    -- lines 434-437: log and continue
    .ok σ
  else if σ.tracker.isProcessedTweet r.Tweet.ID then
    -- lines 439-442: skip processed tweets
    .ok σ
  else if r.Tweet.ID ≠ r.Tweet.ConversationID then
    -- lines 444-512: thread-member branch
    if σ.tracker.isProcessedThread r.Tweet.ConversationID then
      .ok σ
    else
      -- line 450-451: GetTweet on the conversation id; ThreadCalls counts
      -- the attempt whether or not it failed
      let fetched := fetchTweet r.Tweet.ConversationID
      let σ1 : ScrapeState :=
        { σ with counter := { σ.counter with ThreadCalls := σ.counter.ThreadCalls + 1 } }
      match fetched with
      | .error _ =>
        -- lines 452-455: log and continue
        .ok σ1
      | .ok fullThread =>
        if fullThread.IsSelfThread ∧ 0 < fullThread.Thread.length then
          -- line 505: remove the most recently appended unit (Go panics on
          -- an empty slice), then append the ThreadUnit and mark the thread
          match σ1.outputTweets with
          | [] => .error "slice bounds out of range"
          | _ :: _ =>
            .ok { σ1 with
                    outputTweets := σ1.outputTweets.dropLast ++ [buildThreadOutput fullThread]
                    tracker := σ1.tracker.markThreadProcessed fullThread }
        else
          -- guard of line 459 false: nothing appended, nothing marked
          .ok σ1
  else
    -- lines 513-549: standalone branch
    .ok { σ with
            outputTweets := σ.outputTweets ++ [buildStandaloneOutput r.Tweet]
            tracker := σ.tracker.markTweetProcessed r.Tweet.ID }

/-- One full iteration of the scraping loop (src/main.go lines 415-551):
pagination accounting, account rotation, then the record body. -/
def step (accounts : List AccountInfo) (fetchTweet : String → Except String Tweet)
    (σ : ScrapeState) (r : TweetResult) : Except String ScrapeState :=
  handleRecord fetchTweet (rotateAccount accounts (paginationTick σ)) r

/-- The whole scraping loop: fold `step` over the records delivered by
`scraper.GetTweets`, starting from the freshly initialised state. -/
def processTweets (accounts : List AccountInfo) (fetchTweet : String → Except String Tweet)
    (userID : String) (records : List TweetResult) : Except String ScrapeState :=
  records.foldlM (step accounts fetchTweet) (initialState accounts userID)

/-- `twitterscraper.Scraper`, restricted to its cursor store: the field
`cursorTracker map[string]string` is nil until the first save (the other
fields are HTTP-client state with no bearing on the cursor contract; the
mutex only serialises access). A non-nil map is a total function returning
`""` for absent keys, as a Go string-map read does. -/
structure Scraper where
  cursorTracker : Option (String → String)

/-- `twitterscraper.New`, restricted to the cursor store: a fresh scraper
has a nil `cursorTracker`. -/
def NewScraper : Scraper := { cursorTracker := none }

/-- `Scraper.SaveCursor` (src/library/scraper.go lines 74-81): allocate the
map if nil, then store `cursor` under `username`. -/
def Scraper.SaveCursor (s : Scraper) (username cursor : String) : Scraper :=
  match s.cursorTracker with
  | none => { cursorTracker := some (fun u => if u = username then cursor else "") }
  | some m => { cursorTracker := some (fun u => if u = username then cursor else m u) }

/-- `Scraper.LoadCursor` (src/library/scraper.go lines 83-90): `""` when the
map is nil, otherwise the stored value (with `""` for an absent key). -/
def Scraper.LoadCursor (s : Scraper) (username : String) : String :=
  match s.cursorTracker with
  | none => ""
  | some m => m username

/-- A sequence of `SaveCursor` operations applied in order. -/
def applySaves (s : Scraper) (ops : List (String × String)) : Scraper :=
  ops.foldl (fun acc op => acc.SaveCursor op.1 op.2) s

/-- The outcome of `os.ReadFile` as `LoadCursorsFromFile` inspects it:
the not-exist error, another read error, or the file's bytes. -/
inductive FileReadResult where
  | notExist
  | readFailure (msg : String)
  | contents (data : String)
deriving DecidableEq

/-- `Scraper.LoadCursorsFromFile` (src/library/scraper.go lines 103-116).
`read` is the outcome of `os.ReadFile filename`; `unmarshal` is
`json.Unmarshal` into the `cursorTracker` field (which yields the decoded
map, nil included, or a parse error). A missing file returns nil without
touching the tracker; any other read error or a parse error is returned. -/
def Scraper.LoadCursorsFromFile (s : Scraper) (read : FileReadResult)
    (unmarshal : String → Except String (Option (String → String))) : Except String Scraper :=
  match read with
  | .notExist => .ok s
  | .readFailure msg => .error msg
  | .contents data =>
    match unmarshal data with
    | .error e => .error e
    | .ok m => .ok { cursorTracker := m }

/-- The startup actions of `main` (src/main.go lines 288-415) in program
order, up to the scraping loop. `verifyProxyConnection` performs an HTTP GET
to api.ipify.org through the scraper's client (src/library/scraper.go lines
227-257); the profile fetches, the login check and the scraping loop are
platform API calls. -/
inductive StartupAction where
  | loadEnv
  | loadCursorsFromFile
  | getProxyURL
  | setProxy
  | verifyProxyConnection
  | validateAccountsCall
  | clearCookies
  | setAuthToken
  | getProfileTest
  | isLoggedIn
  | getProfileTarget
  | scrapingLoop
deriving DecidableEq

/-- Which startup actions perform network activity: proxy verification is an
HTTP request, and everything from the test profile fetch on is a platform
API call. -/
def StartupAction.isNetwork : StartupAction → Bool
  | .verifyProxyConnection => true
  | .getProfileTest => true
  | .isLoggedIn => true
  | .getProfileTarget => true
  | .scrapingLoop => true
  | _ => false

/-- The order in which `main` performs its startup actions
(src/main.go lines 288-415). -/
def mainStartupOrder : List StartupAction :=
  [.loadEnv, .loadCursorsFromFile, .getProxyURL, .setProxy, .verifyProxyConnection,
   .validateAccountsCall, .clearCookies, .setAuthToken, .getProfileTest,
   .isLoggedIn, .getProfileTarget, .scrapingLoop]

/-! ## Proof-support definitions -/

/-- The output-and-dedup part of the loop state: the only components the
final output depends on (the counters, the rotation index and `lastCount`
never feed back into the output or the dedup decisions). -/
structure TrackState where
  outputTweets : List TweetOutput
  tracker : ThreadTracker

/-- Project a full loop state to its output-and-dedup part. -/
def projTrack (σ : ScrapeState) : TrackState :=
  { outputTweets := σ.outputTweets, tracker := σ.tracker }

/-- The action of `handleRecord` on the output-and-dedup part of the state:
the same branches, with the counter updates dropped. -/
def handleProj (fetchTweet : String → Except String Tweet)
    (p : TrackState) (r : TweetResult) : Except String TrackState :=
  if r.Error.isSome then
    .ok p
  else if p.tracker.isProcessedTweet r.Tweet.ID then
    .ok p
  else if r.Tweet.ID ≠ r.Tweet.ConversationID then
    if p.tracker.isProcessedThread r.Tweet.ConversationID then
      .ok p
    else
      match fetchTweet r.Tweet.ConversationID with
      | .error _ => .ok p
      | .ok fullThread =>
        if fullThread.IsSelfThread ∧ 0 < fullThread.Thread.length then
          match p.outputTweets with
          | [] => .error "slice bounds out of range"
          | _ :: _ =>
            .ok { outputTweets := p.outputTweets.dropLast ++ [buildThreadOutput fullThread]
                  tracker := p.tracker.markThreadProcessed fullThread }
        else .ok p
  else
    .ok { outputTweets := p.outputTweets ++ [buildStandaloneOutput r.Tweet]
          tracker := p.tracker.markTweetProcessed r.Tweet.ID }

/-- A thread-detail fetch is well-behaved when a successful fetch for a
conversation id returns the tweet with that id (what `scraper.GetTweet`
returns for the requested id). -/
def FetchOk (fetchTweet : String → Except String Tweet) : Prop :=
  ∀ c t, fetchTweet c = .ok t → t.ID = c

/-- No thread-detail fetch of the run resolves to a non-empty self-thread:
every attempt either fails or returns a tweet that fails the guard of
src/main.go line 459. Runs whose fetches always fail satisfy this. -/
def NoSelfThreadResolves (fetchTweet : String → Except String Tweet) : Prop :=
  ∀ c t, fetchTweet c = .ok t → ¬(t.IsSelfThread ∧ 0 < t.Thread.length)

/-- Processing the record `r` again leaves the output-and-dedup state
unchanged: it is an error record, an already-emitted tweet, or a
thread-member whose conversation is already resolved or whose fetch cannot
produce a unit. -/
def NeutralRec (fetchTweet : String → Except String Tweet)
    (p : TrackState) (r : TweetResult) : Prop :=
  r.Error.isSome = true ∨
  p.tracker.isProcessedTweet r.Tweet.ID = true ∨
  (r.Tweet.ID ≠ r.Tweet.ConversationID ∧
    (p.tracker.isProcessedThread r.Tweet.ConversationID = true ∨
     ∀ t, fetchTweet r.Tweet.ConversationID = .ok t →
       ¬(t.IsSelfThread ∧ 0 < t.Thread.length)))

/-- The number of calls attributed to session `i` after `k` round-robin
steps over `n` sessions. -/
def roundRobinCount (k n i : Nat) : Nat :=
  k / n + (if i < k % n then 1 else 0)

/-- The sum of the per-session call counts over the configured account
list. -/
def sumCounts (accounts : List AccountInfo) (calls : String → Nat) : Nat :=
  (accounts.map (fun a => calls a.AuthToken)).sum

/-- The rotation invariant after `k` iterations of the scraping loop: the
rotation index is `k` modulo the pool size, session `i` has been charged its
round-robin share, and the per-session counts sum to `k`. -/
def AccInv (accounts : List AccountInfo) (k : Nat) (σ : ScrapeState) : Prop :=
  σ.currentAccount = k % accounts.length ∧
  (∀ i, (hi : i < accounts.length) →
    σ.counter.AccountCalls (accounts[i].AuthToken) = roundRobinCount k accounts.length i) ∧
  sumCounts accounts σ.counter.AccountCalls = k

/-- A unit for `id` that is still a standalone unit (empty member list) is
present in the output sequence. -/
def standaloneKept (l : List TweetOutput) (id : String) : Bool :=
  l.any (fun u => u.ID == id && u.ThreadTweets.isEmpty)

/-- Every post id the tracker has marked processed has a standalone unit in
the output: the invariant of runs in which no thread ever resolves. -/
def MarkedImpliesKept (σ : ScrapeState) : Prop :=
  ∀ id, σ.tracker.processedTweets id = true → standaloneKept σ.outputTweets id = true

/-- The final state of a completed run (the initial state when the run
errors; the theorems that use it assume a completed run). -/
def finalScrapeState (accounts : List AccountInfo) (fetchTweet : String → Except String Tweet)
    (userID : String) (records : List TweetResult) : ScrapeState :=
  match processTweets accounts fetchTweet userID records with
  | .ok σ => σ
  | .error _ => initialState accounts userID

/-! ## Concrete fixtures for closed theorems and witnesses -/

/-- A tweet with the given ids, self-thread flag and members; the remaining
fields are fixed harmless values. -/
def sampleTweet (id conv : String) (selfT : Bool) (thr : List SubTweet) : Tweet :=
  { ID := id, ConversationID := conv, Username := "u", Text := "t", Likes := 0, Replies := 0,
    Views := 0, URLs := [], Photos := [], Videos := [], PermanentURL := "p", TimeParsed := "",
    Timestamp := 0, IsQuoted := false, QuotedStatus := none, IsSelfThread := selfT,
    Thread := thr }

/-- An error-free stream record with the given post id and conversation id. -/
def sampleRecord (id conv : String) : TweetResult :=
  { Tweet := sampleTweet id conv false [], Error := none }

/-- A one-account session pool. -/
def sampleAccounts : List AccountInfo := [{ AuthToken := "tokA", CSRFToken := "csrfA" }]

/-- A two-account session pool with distinct auth tokens. -/
def sampleAccountsPair : List AccountInfo :=
  [{ AuthToken := "tokA", CSRFToken := "csrfA" },
   { AuthToken := "tokB", CSRFToken := "csrfB" }]

/-- A thread member summary with id "B". -/
def sampleMemberB : SubTweet :=
  { ID := "B", Username := "u", Text := "b", Likes := 0, Photos := [], Videos := [],
    PermanentURL := "p" }

/-- A thread member summary with id "D2". -/
def sampleMemberD : SubTweet :=
  { ID := "D2", Username := "u", Text := "d", Likes := 0, Photos := [], Videos := [],
    PermanentURL := "p" }

/-- A thread-detail fetch that resolves conversation "C" to a self-thread
with members "B" and "D2" and fails for every other conversation. -/
def fetchSelfThreadC : String → Except String Tweet := fun c =>
  if c = "C" then .ok (sampleTweet "C" "C" true [sampleMemberB, sampleMemberD])
  else .error "not found"

/-- A thread-detail fetch that resolves conversation "D" to a self-thread
with member "D2" and fails for every other conversation. -/
def fetchSelfThreadD : String → Except String Tweet := fun c =>
  if c = "D" then .ok (sampleTweet "D" "D" true [sampleMemberD])
  else .error "not found"

/-- A thread-detail fetch that fails on every attempt. -/
def fetchAlwaysFails : String → Except String Tweet := fun _ => .error "fetch failed"

/-- A thread-detail fetch that always succeeds but never returns a
confirmed self-thread (the guard of src/main.go line 459 fails). -/
def fetchNotSelfThread : String → Except String Tweet :=
  fun c => .ok (sampleTweet c c false [])

/-! ## Theorems -/

/-! ### Projection lemmas: which state components each loop phase touches -/

@[simp]
theorem paginationTick_outputTweets (σ : ScrapeState) :
    (paginationTick σ).outputTweets = σ.outputTweets := by
  simp only [paginationTick]; split <;> rfl

@[simp]
theorem paginationTick_tracker (σ : ScrapeState) :
    (paginationTick σ).tracker = σ.tracker := by
  simp only [paginationTick]; split <;> rfl

@[simp]
theorem paginationTick_threadCalls (σ : ScrapeState) :
    (paginationTick σ).counter.ThreadCalls = σ.counter.ThreadCalls := by
  simp only [paginationTick]; split <;> rfl

@[simp]
theorem rotateAccount_outputTweets (accounts : List AccountInfo) (σ : ScrapeState) :
    (rotateAccount accounts σ).outputTweets = σ.outputTweets := rfl

@[simp]
theorem rotateAccount_tracker (accounts : List AccountInfo) (σ : ScrapeState) :
    (rotateAccount accounts σ).tracker = σ.tracker := rfl

@[simp]
theorem rotateAccount_threadCalls (accounts : List AccountInfo) (σ : ScrapeState) :
    (rotateAccount accounts σ).counter.ThreadCalls = σ.counter.ThreadCalls := rfl

/-! ### Branch lemmas for the per-record body -/

theorem handleRecord_skip_error (fetchTweet : String → Except String Tweet)
    (σ : ScrapeState) (r : TweetResult) (herr : r.Error.isSome = true) :
    handleRecord fetchTweet σ r = .ok σ := by
  simp [handleRecord, herr]

theorem handleRecord_skip_processed (fetchTweet : String → Except String Tweet)
    (σ : ScrapeState) (r : TweetResult) (herr : r.Error = none)
    (hproc : σ.tracker.isProcessedTweet r.Tweet.ID = true) :
    handleRecord fetchTweet σ r = .ok σ := by
  simp [handleRecord, herr, hproc]

theorem handleRecord_skip_thread (fetchTweet : String → Except String Tweet)
    (σ : ScrapeState) (r : TweetResult) (herr : r.Error = none)
    (hunproc : σ.tracker.isProcessedTweet r.Tweet.ID = false)
    (hmem : r.Tweet.ID ≠ r.Tweet.ConversationID)
    (hproc : σ.tracker.isProcessedThread r.Tweet.ConversationID = true) :
    handleRecord fetchTweet σ r = .ok σ := by
  simp [handleRecord, herr, hunproc, hmem, hproc]

theorem handleRecord_fetch_error (fetchTweet : String → Except String Tweet)
    (σ : ScrapeState) (r : TweetResult) (e : String) (herr : r.Error = none)
    (hunproc : σ.tracker.isProcessedTweet r.Tweet.ID = false)
    (hmem : r.Tweet.ID ≠ r.Tweet.ConversationID)
    (hthreadUnproc : σ.tracker.isProcessedThread r.Tweet.ConversationID = false)
    (hfetch : fetchTweet r.Tweet.ConversationID = .error e) :
    handleRecord fetchTweet σ r =
      .ok { σ with counter := { σ.counter with ThreadCalls := σ.counter.ThreadCalls + 1 } } := by
  simp [handleRecord, herr, hunproc, hmem, hthreadUnproc, hfetch]

theorem handleRecord_guard_fail (fetchTweet : String → Except String Tweet)
    (σ : ScrapeState) (r : TweetResult) (t : Tweet) (herr : r.Error = none)
    (hunproc : σ.tracker.isProcessedTweet r.Tweet.ID = false)
    (hmem : r.Tweet.ID ≠ r.Tweet.ConversationID)
    (hthreadUnproc : σ.tracker.isProcessedThread r.Tweet.ConversationID = false)
    (hfetch : fetchTweet r.Tweet.ConversationID = .ok t)
    (hguard : ¬(t.IsSelfThread ∧ 0 < t.Thread.length)) :
    handleRecord fetchTweet σ r =
      .ok { σ with counter := { σ.counter with ThreadCalls := σ.counter.ThreadCalls + 1 } } := by
  simp [handleRecord, herr, hunproc, hmem, hthreadUnproc, hfetch, hguard]

theorem handleRecord_standalone (fetchTweet : String → Except String Tweet)
    (σ : ScrapeState) (r : TweetResult)
    (herr : r.Error = none)
    (hunproc : σ.tracker.isProcessedTweet r.Tweet.ID = false)
    (hstand : r.Tweet.ID = r.Tweet.ConversationID) :
    handleRecord fetchTweet σ r =
      .ok { σ with outputTweets := σ.outputTweets ++ [buildStandaloneOutput r.Tweet]
                   tracker := σ.tracker.markTweetProcessed r.Tweet.ID } := by
  have hunproc2 := hstand ▸ hunproc
  simp [handleRecord, herr, hunproc2, hstand]

theorem handleRecord_thread_success (fetchTweet : String → Except String Tweet)
    (σ : ScrapeState) (r : TweetResult) (t : Tweet)
    (herr : r.Error = none)
    (hunproc : σ.tracker.isProcessedTweet r.Tweet.ID = false)
    (hmem : r.Tweet.ID ≠ r.Tweet.ConversationID)
    (hthreadUnproc : σ.tracker.isProcessedThread r.Tweet.ConversationID = false)
    (hfetch : fetchTweet r.Tweet.ConversationID = .ok t)
    (hself : t.IsSelfThread) (hthr : 0 < t.Thread.length)
    (x : TweetOutput) (xs : List TweetOutput) (hout : σ.outputTweets = x :: xs) :
    handleRecord fetchTweet σ r =
      .ok { σ with
        counter := { σ.counter with ThreadCalls := σ.counter.ThreadCalls + 1 }
        outputTweets := σ.outputTweets.dropLast ++ [buildThreadOutput t]
        tracker := σ.tracker.markThreadProcessed t } := by
  simp [handleRecord, herr, hunproc, hmem, hthreadUnproc, hfetch, hself, hthr, hout]

/-- C1: the claim states that the final output has exactly one unit per
distinct successfully-fetched thread conversation id plus one per distinct
standalone post id. The code violates this: on the input
`[{id A, conv A}, {id B, conv C}]` with the thread-detail fetch resolving
"C" to a self-thread (the spec's own worked example, which expects the two
units `[StandaloneUnit A, ThreadUnit C]`), the removal at src/main.go line
505 deletes the most recently appended unit — here the standalone unit for
"A", which is unrelated to thread "C" — so the loop ends with the single
unit for "C": one distinct standalone post id ("A") and one resolved
conversation id ("C"), but only 1 output unit instead of 2. -/
theorem c1_spec_example_loses_standalone_unit :
    (processTweets sampleAccounts fetchSelfThreadC "uid"
        [sampleRecord "A" "A", sampleRecord "B" "C"]).map
      (fun σ => (σ.outputTweets.map TweetOutput.ID, σ.outputTweets.length))
      = .ok (["C"], 1) := by
  rfl

/-- C5: the reconciliation loop is not total. When the first record that
would produce an emitted unit is a thread member (post id "B" ≠ conversation
id "C") whose thread-detail fetch succeeds with a non-empty self-thread, the
removal `outputTweets[:len(outputTweets)-1]` at src/main.go line 505 runs
with an empty output slice, an out-of-bounds slice operation; the guarded
embedding returns an error for this input. -/
theorem c5_removal_out_of_bounds :
    processTweets sampleAccounts fetchSelfThreadC "uid" [sampleRecord "B" "C"]
      = .error "slice bounds out of range" := by
  rfl

/-- C3 counterexample: delivering the same thread-member record (post id
"B", conversation id "C") twice when its thread-detail fetch always fails
refutes "the second occurrence is skipped by the dedup check": a skipped
record issues no thread-detail call, yet the run performs 2 thread-detail
calls — the second occurrence was fully reprocessed (the failed first
attempt marked nothing). The output is nevertheless the same (empty) either
way. -/
theorem c3_second_delivery_not_skipped_counterexample :
    (processTweets sampleAccounts fetchAlwaysFails "uid"
        [sampleRecord "B" "C", sampleRecord "B" "C"]).map
      (fun σ => (σ.counter.ThreadCalls, σ.outputTweets)) = .ok (2, []) := by
  rfl

/-- C4 counterexample, two parts. First: an input consisting of one
thread-member record (post id "B", conversation id "C") whose fetch always
fails ends with an empty output — no StandaloneUnit for the root "C" exists,
because the code never fabricates a unit for a root that was not itself
delivered as a standalone record. Second: even when the root "C" is
delivered standalone first, a later unrelated successful thread resolution
(conversation "D") removes the most recently appended unit — the root's
standalone unit — so no unit with id "C" survives. -/
theorem c4_root_unit_counterexample :
    (processTweets sampleAccounts fetchAlwaysFails "uid" [sampleRecord "B" "C"]).map
      (fun σ => σ.outputTweets) = .ok []
    ∧ (processTweets sampleAccounts fetchSelfThreadD "uid"
        [sampleRecord "C" "C", sampleRecord "E" "D"]).map
      (fun σ => σ.outputTweets.any (fun u => u.ID = "C")) = .ok false := by
  exact ⟨rfl, rfl⟩

/-- C6 counterexample: with one configured session and two standalone
records, the session is charged once per loop iteration (2 calls), while the
global tally is 1 timeline call (the pre-loop increment; no page boundary is
crossed and no thread-detail call is made) — so the per-session sum (2) does
not equal the global call tally (1). -/
theorem c6_session_sum_counterexample :
    (processTweets sampleAccounts fetchAlwaysFails "uid"
        [sampleRecord "A" "A", sampleRecord "B" "B"]).map
      (fun σ => (σ.counter.AccountCalls "tokA",
                 σ.counter.TimelineCalls + σ.counter.ThreadCalls)) = .ok (2, 1) := by
  rfl

/-- C8 counterexample: in `main`'s startup order the proxy verification —
an HTTP request through the scraper's client — runs strictly before the
session-list validation, so a validation failure does not abort before all
network activity. -/
theorem c8_network_before_validation_counterexample :
    mainStartupOrder.indexOf .verifyProxyConnection
      < mainStartupOrder.indexOf .validateAccountsCall
    ∧ StartupAction.isNetwork .verifyProxyConnection = true := by
  decide

/-- C2: for an input of the shape [root delivered standalone, then a
thread-member record of the same conversation whose thread-detail fetch
succeeds with a non-empty self-thread], the final output is exactly the
single ThreadUnit built from the fetched thread: the replacement removed
exactly the previously appended StandaloneUnit for the root, and the
surviving unit is the thread unit (`IsThreadStart = true`). -/
theorem c2_replace_on_resolve (accounts : List AccountInfo) (userID : String)
    (fetchTweet : String → Except String Tweet)
    (root member : TweetResult) (t : Tweet)
    (hrootErr : root.Error = none) (hmemErr : member.Error = none)
    (hroot : root.Tweet.ID = root.Tweet.ConversationID)
    (hconv : member.Tweet.ConversationID = root.Tweet.ID)
    (hmem : member.Tweet.ID ≠ member.Tweet.ConversationID)
    (hfetch : fetchTweet member.Tweet.ConversationID = .ok t)
    (hself : t.IsSelfThread) (hthr : 0 < t.Thread.length) :
    (processTweets accounts fetchTweet userID [root, member]).map
      (fun σ => σ.outputTweets) = .ok [buildThreadOutput t]
    ∧ (buildThreadOutput t).IsThreadStart = true := by
  refine ⟨?_, by simp [buildThreadOutput, hself]⟩
  have hmemID : member.Tweet.ID ≠ root.Tweet.ID := hconv ▸ hmem
  set σ0 := initialState accounts userID with hσ0
  set σ0r := rotateAccount accounts (paginationTick σ0) with hσ0r
  have h1 : handleRecord fetchTweet σ0r root =
      .ok { σ0r with outputTweets := σ0r.outputTweets ++ [buildStandaloneOutput root.Tweet]
                     tracker := σ0r.tracker.markTweetProcessed root.Tweet.ID } := by
    apply handleRecord_standalone _ _ _ hrootErr _ hroot
    simp [hσ0r, hσ0, initialState, NewThreadTracker, ThreadTracker.isProcessedTweet]
  set σ1 : ScrapeState :=
    { σ0r with outputTweets := σ0r.outputTweets ++ [buildStandaloneOutput root.Tweet]
               tracker := σ0r.tracker.markTweetProcessed root.Tweet.ID } with hσ1
  set σ1r := rotateAccount accounts (paginationTick σ1) with hσ1r
  have htr1 : σ1r.tracker = σ0r.tracker.markTweetProcessed root.Tweet.ID := by
    simp [hσ1r, hσ1]
  have hout1 : σ1r.outputTweets = σ0r.outputTweets ++ [buildStandaloneOutput root.Tweet] := by
    simp [hσ1r, hσ1]
  have hout0 : σ0r.outputTweets = [] := by
    simp [hσ0r, hσ0, initialState]
  have hu2 : σ1r.tracker.isProcessedTweet member.Tweet.ID = false := by
    rw [htr1]
    simp [ThreadTracker.isProcessedTweet, ThreadTracker.markTweetProcessed, hmemID,
      hσ0r, hσ0, initialState, NewThreadTracker]
  have ht2 : σ1r.tracker.isProcessedThread member.Tweet.ConversationID = false := by
    rw [htr1]
    simp [ThreadTracker.isProcessedThread, ThreadTracker.markTweetProcessed,
      hσ0r, hσ0, initialState, NewThreadTracker]
  have ho2 : σ1r.outputTweets = buildStandaloneOutput root.Tweet :: [] := by
    rw [hout1, hout0]; rfl
  have h2 := handleRecord_thread_success fetchTweet σ1r member t hmemErr hu2 hmem ht2
    hfetch hself hthr _ _ ho2
  show (List.foldlM (step accounts fetchTweet) σ0 [root, member]).map
      (fun σ => σ.outputTweets) = .ok [buildThreadOutput t]
  rw [List.foldlM]
  simp only [step, h1, bind, Except.bind, List.foldlM, h2, ← hσ1, ← hσ1r]
  simp [Except.map, pure, Except.pure, hout1, hout0]

/-- C2 witness: the two-record input [root "C" standalone, member "B" of
conversation "C"] with the fetch resolving "C" to a self-thread with two
members. -/
theorem c2_replace_on_resolve_witness :
    (processTweets sampleAccounts fetchSelfThreadC "uid"
        [sampleRecord "C" "C", sampleRecord "B" "C"]).map
      (fun σ => σ.outputTweets)
      = .ok [buildThreadOutput (sampleTweet "C" "C" true [sampleMemberB, sampleMemberD])]
    ∧ (buildThreadOutput (sampleTweet "C" "C" true [sampleMemberB, sampleMemberD])).IsThreadStart
      = true :=
  c2_replace_on_resolve sampleAccounts "uid" fetchSelfThreadC
    (sampleRecord "C" "C") (sampleRecord "B" "C")
    (sampleTweet "C" "C" true [sampleMemberB, sampleMemberD])
    rfl rfl rfl rfl (by decide) rfl rfl (by decide)

/-- The cursor read after a sequence of saves that never touch `subject` is
the read before them. -/
theorem loadCursor_applySaves (s : Scraper) (subject : String)
    (ops : List (String × String)) (hops : ∀ p ∈ ops, p.1 ≠ subject) :
    (applySaves s ops).LoadCursor subject = s.LoadCursor subject := by
  induction ops generalizing s with
  | nil => rfl
  | cons op rest ih =>
    have hop : op.1 ≠ subject := hops op (by simp)
    have hrest : ∀ p ∈ rest, p.1 ≠ subject := fun p hp => hops p (by simp [hp])
    have hsave : (s.SaveCursor op.1 op.2).LoadCursor subject = s.LoadCursor subject := by
      cases hs : s.cursorTracker <;>
        simp only [Scraper.SaveCursor, Scraper.LoadCursor, hs] <;>
        rw [if_neg (Ne.symm hop)]
    calc (applySaves s (op :: rest)).LoadCursor subject
        = (applySaves (s.SaveCursor op.1 op.2) rest).LoadCursor subject := rfl
      _ = (s.SaveCursor op.1 op.2).LoadCursor subject := ih _ hrest
      _ = s.LoadCursor subject := hsave

/-- C7: saving a cursor token for a subject and then loading that subject
returns exactly the saved token, from any prior cursor state; and loading a
subject that was never saved (after any sequence of saves for other
subjects on a fresh scraper) returns the empty token, without any error
path. -/
theorem c7_cursor_roundtrip (s : Scraper) (subject token : String)
    (ops : List (String × String)) (hops : ∀ p ∈ ops, p.1 ≠ subject) :
    ((s.SaveCursor subject token).LoadCursor subject = token) ∧
    (applySaves NewScraper ops).LoadCursor subject = "" := by
  constructor
  · cases hs : s.cursorTracker <;> simp [Scraper.SaveCursor, Scraper.LoadCursor, hs]
  · rw [loadCursor_applySaves NewScraper subject ops hops]; rfl

/-- C7 witness: save "tokX" under "subj" on a fresh scraper and read it
back; read "subj" after a save for a different subject only. -/
theorem c7_cursor_roundtrip_witness :
    ((NewScraper.SaveCursor "subj" "tokX").LoadCursor "subj" = "tokX") ∧
    (applySaves NewScraper [("other", "t1")]).LoadCursor "subj" = "" :=
  c7_cursor_roundtrip NewScraper "subj" "tokX" [("other", "t1")] (by decide)

/-- C9: loading persisted cursor state from a missing file succeeds and
leaves the scraper exactly as it was; and any error the load returns comes
either from a non-not-exist read failure or from a parse failure on the
file's contents — there is no other error source. -/
theorem c9_load_cursors_missing_file_ok (s : Scraper)
    (unmarshal : String → Except String (Option (String → String)))
    (read : FileReadResult) (e : String)
    (herr : s.LoadCursorsFromFile read unmarshal = .error e) :
    s.LoadCursorsFromFile .notExist unmarshal = .ok s ∧
    (read = .readFailure e ∨ ∃ d, read = .contents d ∧ unmarshal d = .error e) := by
  refine ⟨rfl, ?_⟩
  cases read with
  | notExist => exact absurd herr (by simp [Scraper.LoadCursorsFromFile])
  | readFailure m =>
    left
    have hme : m = e := by simpa [Scraper.LoadCursorsFromFile] using herr
    rw [hme]
  | contents d =>
    right
    refine ⟨d, rfl, ?_⟩
    simp only [Scraper.LoadCursorsFromFile] at herr
    cases hu : unmarshal d with
    | error e2 =>
      rw [hu] at herr
      have he2 : e2 = e := by simpa using herr
      rw [he2]
    | ok m => rw [hu] at herr; simp at herr

/-- C9 witness: a fresh scraper, a trivially succeeding unmarshal, and a
failing read with message "io". -/
theorem c9_load_cursors_missing_file_ok_witness :
    NewScraper.LoadCursorsFromFile .notExist (fun _ => .ok none) = .ok NewScraper ∧
    (FileReadResult.readFailure "io" = .readFailure "io" ∨
      ∃ d, FileReadResult.readFailure "io" = .contents d ∧
        (fun _ => (.ok none : Except String (Option (String → String)))) d = .error "io") :=
  c9_load_cursors_missing_file_ok NewScraper (fun _ => .ok none) (.readFailure "io") "io" rfl

/-- Validation of the account list from index `i` succeeds exactly when
every listed account has both tokens. -/
theorem validateAccountsFrom_isOk (accounts : List AccountInfo) :
    ∀ i, (validateAccountsFrom accounts i).isOk = true ↔
      ∀ a ∈ accounts, a.AuthToken ≠ "" ∧ a.CSRFToken ≠ "" := by
  induction accounts with
  | nil => intro i; simp [validateAccountsFrom, Except.isOk, Except.toBool]
  | cons acc rest ih =>
    intro i
    simp only [validateAccountsFrom]
    split
    · rename_i h
      simp only [Except.isOk, Except.toBool]
      constructor
      · intro hfalse; exact absurd hfalse (by simp)
      · intro hall
        rcases hall acc (by simp) with ⟨h1, h2⟩
        rcases h with h | h
        · exact absurd h h1
        · exact absurd h h2
    · rename_i h
      push_neg at h
      rw [ih (i + 1)]
      constructor
      · intro hall a ha
        rcases List.mem_cons.mp ha with rfl | ha
        · exact h
        · exact hall a ha
      · intro hall a ha; exact hall a (List.mem_cons_of_mem _ ha)

/-- C8 (amended): session-list validation succeeds if and only if the list
is non-empty and every session has both credentials — equivalently, it
fails with a configuration error exactly when the list is empty or some
credential is missing; and in `main`'s startup order the validation runs
before any authenticated platform call (though after proxy verification,
which performs one network request — see the counterexample). -/
theorem c8_validate_accounts_iff (accounts : List AccountInfo) :
    ((validateAccounts accounts).isOk = true ↔
      accounts ≠ [] ∧ ∀ a ∈ accounts, a.AuthToken ≠ "" ∧ a.CSRFToken ≠ "") ∧
    mainStartupOrder.indexOf StartupAction.validateAccountsCall
      < mainStartupOrder.indexOf StartupAction.setAuthToken := by
  refine ⟨?_, by decide⟩
  unfold validateAccounts
  split
  · rename_i h
    have hnil : accounts = [] := List.length_eq_zero.mp h
    subst hnil
    simp [Except.isOk, Except.toBool]
  · rename_i h
    have hne : accounts ≠ [] := by intro he; subst he; simp at h
    rw [validateAccountsFrom_isOk accounts 0]
    simp [hne]

/-- C10: when a thread-member record's fetch succeeds but the fetched
thread is not a confirmed non-empty self-thread, the iteration appends
nothing, leaves the record's post id and conversation id unmarked, and
counts the fetch attempt; an immediate re-delivery of the same record
triggers a second thread-detail fetch in the same run. -/
theorem c10_unconfirmed_thread_no_effect (accounts : List AccountInfo)
    (fetchTweet : String → Except String Tweet)
    (σ : ScrapeState) (r : TweetResult) (t : Tweet)
    (herr : r.Error = none)
    (hunproc : σ.tracker.isProcessedTweet r.Tweet.ID = false)
    (hmem : r.Tweet.ID ≠ r.Tweet.ConversationID)
    (hthreadUnproc : σ.tracker.isProcessedThread r.Tweet.ConversationID = false)
    (hfetch : fetchTweet r.Tweet.ConversationID = .ok t)
    (hguard : ¬(t.IsSelfThread ∧ 0 < t.Thread.length)) :
    (step accounts fetchTweet σ r).map (fun σ2 => σ2.outputTweets) = .ok σ.outputTweets ∧
    (step accounts fetchTweet σ r).map
      (fun σ2 => σ2.tracker.isProcessedTweet r.Tweet.ID) = .ok false ∧
    (step accounts fetchTweet σ r).map
      (fun σ2 => σ2.tracker.isProcessedThread r.Tweet.ConversationID) = .ok false ∧
    (step accounts fetchTweet σ r).map
      (fun σ2 => σ2.counter.ThreadCalls) = .ok (σ.counter.ThreadCalls + 1) ∧
    ((step accounts fetchTweet σ r).bind (fun σ2 => step accounts fetchTweet σ2 r)).map
      (fun σ3 => σ3.counter.ThreadCalls) = .ok (σ.counter.ThreadCalls + 2) := by
  set σr := rotateAccount accounts (paginationTick σ) with hσr
  have htr : σr.tracker = σ.tracker := by simp [hσr]
  have hout : σr.outputTweets = σ.outputTweets := by simp [hσr]
  have htc : σr.counter.ThreadCalls = σ.counter.ThreadCalls := by simp [hσr]
  have hu : σr.tracker.isProcessedTweet r.Tweet.ID = false := by rw [htr]; exact hunproc
  have ht : σr.tracker.isProcessedThread r.Tweet.ConversationID = false := by
    rw [htr]; exact hthreadUnproc
  have h1 := handleRecord_guard_fail fetchTweet σr r t herr hu hmem ht hfetch hguard
  have hstep1 : step accounts fetchTweet σ r =
      .ok { σr with counter := { σr.counter with ThreadCalls := σr.counter.ThreadCalls + 1 } } := by
    rw [step, ← hσr, h1]
  set σ1 : ScrapeState :=
    { σr with counter := { σr.counter with ThreadCalls := σr.counter.ThreadCalls + 1 } } with hσ1
  set σ1r := rotateAccount accounts (paginationTick σ1) with hσ1r
  have htr1 : σ1r.tracker = σ.tracker := by simp [hσ1r, hσ1, htr]
  have htc1 : σ1r.counter.ThreadCalls = σ.counter.ThreadCalls + 1 := by simp [hσ1r, hσ1, htc]
  have hu1 : σ1r.tracker.isProcessedTweet r.Tweet.ID = false := by rw [htr1]; exact hunproc
  have ht1 : σ1r.tracker.isProcessedThread r.Tweet.ConversationID = false := by
    rw [htr1]; exact hthreadUnproc
  have h2 := handleRecord_guard_fail fetchTweet σ1r r t herr hu1 hmem ht1 hfetch hguard
  have hstep2 : step accounts fetchTweet σ1 r =
      .ok { σ1r with
        counter := { σ1r.counter with ThreadCalls := σ1r.counter.ThreadCalls + 1 } } := by
    rw [step, ← hσ1r, h2]
  refine ⟨?_, ?_, ?_, ?_, ?_⟩
  · rw [hstep1]; simp [hσ1, Except.map, hout]
  · rw [hstep1]; simp [hσ1, Except.map, htr, hunproc]
  · rw [hstep1]; simp [hσ1, Except.map, htr, hthreadUnproc]
  · rw [hstep1]; simp [hσ1, Except.map, htc]
  · rw [hstep1]
    show (step accounts fetchTweet σ1 r).map (fun σ3 => σ3.counter.ThreadCalls)
      = .ok (σ.counter.ThreadCalls + 2)
    rw [hstep2]; simp [Except.map, htc1]

/-- C10 witness: the fresh loop state, the member record "B" of
conversation "C", and a fetch that returns a non-self-thread tweet. -/
theorem c10_unconfirmed_thread_no_effect_witness :
    (step sampleAccounts fetchNotSelfThread (initialState sampleAccounts "uid")
        (sampleRecord "B" "C")).map (fun σ2 => σ2.outputTweets)
      = .ok (initialState sampleAccounts "uid").outputTweets ∧
    (step sampleAccounts fetchNotSelfThread (initialState sampleAccounts "uid")
        (sampleRecord "B" "C")).map
      (fun σ2 => σ2.tracker.isProcessedTweet (sampleRecord "B" "C").Tweet.ID) = .ok false ∧
    (step sampleAccounts fetchNotSelfThread (initialState sampleAccounts "uid")
        (sampleRecord "B" "C")).map
      (fun σ2 => σ2.tracker.isProcessedThread (sampleRecord "B" "C").Tweet.ConversationID)
      = .ok false ∧
    (step sampleAccounts fetchNotSelfThread (initialState sampleAccounts "uid")
        (sampleRecord "B" "C")).map
      (fun σ2 => σ2.counter.ThreadCalls)
      = .ok ((initialState sampleAccounts "uid").counter.ThreadCalls + 1) ∧
    ((step sampleAccounts fetchNotSelfThread (initialState sampleAccounts "uid")
        (sampleRecord "B" "C")).bind
      (fun σ2 => step sampleAccounts fetchNotSelfThread σ2 (sampleRecord "B" "C"))).map
      (fun σ3 => σ3.counter.ThreadCalls)
      = .ok ((initialState sampleAccounts "uid").counter.ThreadCalls + 2) :=
  c10_unconfirmed_thread_no_effect sampleAccounts fetchNotSelfThread
    (initialState sampleAccounts "uid") (sampleRecord "B" "C")
    (sampleTweet "C" "C" false []) rfl rfl (by decide) rfl rfl (by decide)

theorem standaloneKept_append (l l2 : List TweetOutput) (id : String)
    (h : standaloneKept l id = true) : standaloneKept (l ++ l2) id = true := by
  simp only [standaloneKept, List.any_append, Bool.or_eq_true]
  exact Or.inl h

theorem standaloneKept_new (l : List TweetOutput) (t : Tweet) :
    standaloneKept (l ++ [buildStandaloneOutput t]) t.ID = true := by
  simp [standaloneKept, List.any_append, buildStandaloneOutput]

theorem step_no_resolve_cases (accounts : List AccountInfo)
    (fetchTweet : String → Except String Tweet) (hnr : NoSelfThreadResolves fetchTweet)
    (σ : ScrapeState) (r : TweetResult) :
    ∃ σ', step accounts fetchTweet σ r = .ok σ' ∧
      ((σ'.outputTweets = σ.outputTweets ∧ σ'.tracker = σ.tracker) ∨
       (σ'.outputTweets = σ.outputTweets ++ [buildStandaloneOutput r.Tweet] ∧
        σ'.tracker = σ.tracker.markTweetProcessed r.Tweet.ID ∧
        r.Tweet.ID = r.Tweet.ConversationID)) := by
  set σr := rotateAccount accounts (paginationTick σ) with hσr
  have htr : σr.tracker = σ.tracker := by simp [hσr]
  have hout : σr.outputTweets = σ.outputTweets := by simp [hσr]
  show ∃ σ', handleRecord fetchTweet σr r = .ok σ' ∧ _
  by_cases herr : r.Error.isSome = true
  · exact ⟨σr, handleRecord_skip_error fetchTweet σr r herr, Or.inl ⟨hout, htr⟩⟩
  have herr2 : r.Error = none := Option.not_isSome_iff_eq_none.mp herr
  by_cases hproc : σr.tracker.isProcessedTweet r.Tweet.ID = true
  · exact ⟨σr, handleRecord_skip_processed fetchTweet σr r herr2 hproc, Or.inl ⟨hout, htr⟩⟩
  have hproc2 : σr.tracker.isProcessedTweet r.Tweet.ID = false := by
    simpa using hproc
  by_cases hstand : r.Tweet.ID = r.Tweet.ConversationID
  · refine ⟨_, handleRecord_standalone fetchTweet σr r herr2 hproc2 hstand, Or.inr ?_⟩
    refine ⟨?_, ?_, hstand⟩ <;> simp [hout, htr]
  by_cases hthr : σr.tracker.isProcessedThread r.Tweet.ConversationID = true
  · exact ⟨σr, handleRecord_skip_thread fetchTweet σr r herr2 hproc2 hstand hthr,
      Or.inl ⟨hout, htr⟩⟩
  have hthr2 : σr.tracker.isProcessedThread r.Tweet.ConversationID = false := by
    simpa using hthr
  cases hf : fetchTweet r.Tweet.ConversationID with
  | error e =>
    refine ⟨_, handleRecord_fetch_error fetchTweet σr r e herr2 hproc2 hstand hthr2 hf,
      Or.inl ⟨hout, htr⟩⟩
  | ok t =>
    refine ⟨_, handleRecord_guard_fail fetchTweet σr r t herr2 hproc2 hstand hthr2 hf
      (hnr _ _ hf), Or.inl ⟨hout, htr⟩⟩

theorem markedImpliesKept_step (accounts : List AccountInfo)
    (fetchTweet : String → Except String Tweet) (hnr : NoSelfThreadResolves fetchTweet)
    (σ σ' : ScrapeState) (r : TweetResult)
    (hstep : step accounts fetchTweet σ r = .ok σ')
    (hInv : MarkedImpliesKept σ) :
    MarkedImpliesKept σ' ∧
    (∀ id, standaloneKept σ.outputTweets id = true → standaloneKept σ'.outputTweets id = true) := by
  obtain ⟨σ2, hstep2, hcase⟩ := step_no_resolve_cases accounts fetchTweet hnr σ r
  rw [hstep] at hstep2
  cases hstep2
  rcases hcase with ⟨ho, ht⟩ | ⟨ho, ht, hstand⟩
  · exact ⟨fun id h => by rw [ho]; exact hInv id (by rw [← ht]; exact h),
      fun id h => by rw [ho]; exact h⟩
  · constructor
    · intro id h
      rw [ht] at h
      simp only [ThreadTracker.markTweetProcessed] at h
      rw [ho]
      by_cases hid : id = r.Tweet.ID
      · subst hid; exact standaloneKept_new _ _
      · rw [if_neg hid] at h
        exact standaloneKept_append _ _ _ (hInv id h)
    · intro id h
      rw [ho]
      exact standaloneKept_append _ _ _ h

theorem foldlM_no_resolve (accounts : List AccountInfo)
    (fetchTweet : String → Except String Tweet) (hnr : NoSelfThreadResolves fetchTweet) :
    ∀ (l : List TweetResult) (σ : ScrapeState), MarkedImpliesKept σ →
      ∃ σ', List.foldlM (step accounts fetchTweet) σ l = .ok σ' ∧ MarkedImpliesKept σ' ∧
        (∀ id, standaloneKept σ.outputTweets id = true →
          standaloneKept σ'.outputTweets id = true) := by
  intro l
  induction l with
  | nil => exact fun σ hInv => ⟨σ, rfl, hInv, fun _ h => h⟩
  | cons r rest ih =>
    intro σ hInv
    obtain ⟨σ1, hstep, _⟩ := step_no_resolve_cases accounts fetchTweet hnr σ r
    obtain ⟨hInv1, hmono1⟩ := markedImpliesKept_step accounts fetchTweet hnr σ σ1 r hstep hInv
    obtain ⟨σ', hrest, hInv', hmono'⟩ := ih σ1 hInv1
    refine ⟨σ', ?_, hInv', fun id h => hmono' id (hmono1 id h)⟩
    rw [List.foldlM_cons, hstep]
    exact hrest

theorem step_standalone_kept (accounts : List AccountInfo)
    (fetchTweet : String → Except String Tweet) (σ : ScrapeState) (r : TweetResult)
    (herr : r.Error = none) (hstand : r.Tweet.ID = r.Tweet.ConversationID)
    (hInv : MarkedImpliesKept σ) :
    ∃ σ', step accounts fetchTweet σ r = .ok σ' ∧
      standaloneKept σ'.outputTweets r.Tweet.ID = true := by
  set σr := rotateAccount accounts (paginationTick σ) with hσr
  have htr : σr.tracker = σ.tracker := by simp [hσr]
  have hout : σr.outputTweets = σ.outputTweets := by simp [hσr]
  show ∃ σ', handleRecord fetchTweet σr r = .ok σ' ∧ _
  by_cases hproc : σr.tracker.isProcessedTweet r.Tweet.ID = true
  · refine ⟨σr, handleRecord_skip_processed fetchTweet σr r herr hproc, ?_⟩
    rw [hout]
    rw [htr] at hproc
    exact hInv r.Tweet.ID hproc
  · have hproc2 : σr.tracker.isProcessedTweet r.Tweet.ID = false := by simpa using hproc
    refine ⟨_, handleRecord_standalone fetchTweet σr r herr hproc2 hstand, ?_⟩
    simp only [hout]
    exact standaloneKept_new σ.outputTweets r.Tweet

/-- C4 (amended): in a run where no thread-detail fetch resolves to a
non-empty self-thread (in particular when, as the claim assumes, the
thread-member record's fetch fails on every attempt) and the member's root
was itself delivered as an error-free standalone record, the final output
contains a still-standalone unit for that root: partial failure degrades to
the root staying a normal post, with no loss of its unit. -/
theorem c4_failed_fetch_keeps_standalone_root (accounts : List AccountInfo) (userID : String)
    (fetchTweet : String → Except String Tweet) (records : List TweetResult)
    (rootR memberR : TweetResult)
    (hnr : NoSelfThreadResolves fetchTweet)
    (hmemIn : memberR ∈ records) (hmemErr : memberR.Error = none)
    (hmemThread : memberR.Tweet.ID ≠ memberR.Tweet.ConversationID)
    (hmemConv : memberR.Tweet.ConversationID = rootR.Tweet.ID)
    (hmemFetchFails : (fetchTweet memberR.Tweet.ConversationID).isOk = false)
    (hrootIn : rootR ∈ records) (hrootErr : rootR.Error = none)
    (hrootStand : rootR.Tweet.ID = rootR.Tweet.ConversationID) :
    (processTweets accounts fetchTweet userID records).map
      (fun σ => standaloneKept σ.outputTweets rootR.Tweet.ID) = .ok true := by
  obtain ⟨l1, l2, hsplit⟩ := List.append_of_mem hrootIn
  subst hsplit
  have hInv0 : MarkedImpliesKept (initialState accounts userID) := by
    intro id h
    simp [initialState, NewThreadTracker] at h
  obtain ⟨σ1, hrun1, hInv1, _⟩ :=
    foldlM_no_resolve accounts fetchTweet hnr l1 (initialState accounts userID) hInv0
  -- process the root record
  obtain ⟨σ2, hstep2, hkept2⟩ :=
    step_standalone_kept accounts fetchTweet σ1 rootR hrootErr hrootStand hInv1
  obtain ⟨hInv2, _⟩ := markedImpliesKept_step accounts fetchTweet hnr σ1 σ2 rootR hstep2 hInv1
  obtain ⟨σ3, hrun3, _, hmono3⟩ := foldlM_no_resolve accounts fetchTweet hnr l2 σ2 hInv2
  have : processTweets accounts fetchTweet userID (l1 ++ rootR :: l2) = .ok σ3 := by
    rw [processTweets, List.foldlM_append, hrun1]
    show List.foldlM (step accounts fetchTweet) σ1 (rootR :: l2) = .ok σ3
    rw [List.foldlM_cons, hstep2]
    exact hrun3
  rw [this]
  simp [Except.map]
  exact hmono3 _ hkept2

theorem handleRecord_proj (fetchTweet : String → Except String Tweet)
    (σ : ScrapeState) (r : TweetResult) :
    (handleRecord fetchTweet σ r).map projTrack = handleProj fetchTweet (projTrack σ) r := by
  unfold handleRecord handleProj projTrack
  dsimp only
  split_ifs with h1 h2 h3 h4
  · rfl
  · rfl
  · rfl
  · cases hf : fetchTweet r.Tweet.ConversationID with
    | error e => rfl
    | ok t =>
      dsimp only
      split_ifs with h5
      · cases ho : σ.outputTweets with
        | nil => rfl
        | cons x xs => rfl
      · rfl
  · rfl

theorem projTrack_rotate_pagination (accounts : List AccountInfo) (σ : ScrapeState) :
    projTrack (rotateAccount accounts (paginationTick σ)) = projTrack σ := by
  simp [projTrack]

theorem step_proj (accounts : List AccountInfo) (fetchTweet : String → Except String Tweet)
    (σ : ScrapeState) (r : TweetResult) :
    (step accounts fetchTweet σ r).map projTrack = handleProj fetchTweet (projTrack σ) r := by
  rw [step, handleRecord_proj, projTrack_rotate_pagination]

theorem foldlM_step_proj (accounts : List AccountInfo)
    (fetchTweet : String → Except String Tweet) :
    ∀ (l : List TweetResult) (σ : ScrapeState),
      (List.foldlM (step accounts fetchTweet) σ l).map projTrack
        = List.foldlM (handleProj fetchTweet) (projTrack σ) l := by
  intro l
  induction l with
  | nil => intro σ; rfl
  | cons r rest ih =>
    intro σ
    rw [List.foldlM_cons, List.foldlM_cons]
    cases hs : step accounts fetchTweet σ r with
    | error e =>
      have hp : handleProj fetchTweet (projTrack σ) r = .error e := by
        rw [← step_proj, hs]; rfl
      rw [hp]
      simp [Except.bind, Except.map, hs]
      rfl
    | ok σ1 =>
      have hp : handleProj fetchTweet (projTrack σ) r = .ok (projTrack σ1) := by
        rw [← step_proj, hs]; rfl
      rw [hp]
      show (Except.bind (.ok σ1) (fun σ2 => List.foldlM (step accounts fetchTweet) σ2 rest)).map projTrack
        = Except.bind (.ok (projTrack σ1)) (fun p => List.foldlM (handleProj fetchTweet) p rest)
      simp only [Except.bind]
      exact ih σ1

-- tracker marking lemmas
theorem markTweetProcessed_lookup (t : ThreadTracker) (j id : String) :
    (t.markTweetProcessed j).processedTweets id
      = if id = j then true else t.processedTweets id := rfl

theorem markTweetProcessed_threads (t : ThreadTracker) (j : String) :
    (t.markTweetProcessed j).processedThreads = t.processedThreads := rfl

theorem foldl_markTweet_threads (l : List SubTweet) :
    ∀ (t : ThreadTracker),
      (l.foldl (fun acc tt => acc.markTweetProcessed tt.ID) t).processedThreads
        = t.processedThreads := by
  induction l with
  | nil => intro t; rfl
  | cons x xs ih => intro t; rw [List.foldl_cons, ih, markTweetProcessed_threads]

theorem foldl_markTweet_tweets_mono (l : List SubTweet) :
    ∀ (t : ThreadTracker) (id : String), t.processedTweets id = true →
      (l.foldl (fun acc tt => acc.markTweetProcessed tt.ID) t).processedTweets id = true := by
  induction l with
  | nil => intro t id h; exact h
  | cons x xs ih =>
    intro t id h
    rw [List.foldl_cons]
    exact ih _ id (by rw [markTweetProcessed_lookup]; split <;> simp [h])

theorem markThreadProcessed_threads (t : ThreadTracker) (thread : Tweet) (id : String) :
    (t.markThreadProcessed thread).processedThreads id
      = if id = thread.ID then true else t.processedThreads id := by
  unfold ThreadTracker.markThreadProcessed
  rw [foldl_markTweet_threads, markTweetProcessed_threads]

theorem markThreadProcessed_tweets_mono (t : ThreadTracker) (thread : Tweet) (id : String)
    (h : t.processedTweets id = true) :
    (t.markThreadProcessed thread).processedTweets id = true := by
  unfold ThreadTracker.markThreadProcessed
  apply foldl_markTweet_tweets_mono
  rw [markTweetProcessed_lookup]
  split <;> simp [h]

-- handleProj branch shapes
theorem handleProj_tracker_mono (fetchTweet : String → Except String Tweet)
    (p p' : TrackState) (q : TweetResult) (h : handleProj fetchTweet p q = .ok p') :
    (∀ id, p.tracker.processedTweets id = true → p'.tracker.processedTweets id = true) ∧
    (∀ id, p.tracker.processedThreads id = true → p'.tracker.processedThreads id = true) := by
  unfold handleProj at h
  split_ifs at h with h1 h2 h3 h4
  · cases h; exact ⟨fun _ h => h, fun _ h => h⟩
  · cases h; exact ⟨fun _ h => h, fun _ h => h⟩
  · cases h; exact ⟨fun _ h => h, fun _ h => h⟩
  · revert h
    cases hf : fetchTweet q.Tweet.ConversationID with
    | error e => intro h; cases h; exact ⟨fun _ h => h, fun _ h => h⟩
    | ok t =>
      intro h
      dsimp only at h
      split_ifs at h with h5
      · revert h
        cases ho : p.outputTweets with
        | nil => intro h; cases h
        | cons x xs =>
          intro h; cases h
          refine ⟨fun id hh => markThreadProcessed_tweets_mono _ _ _ hh, fun id hh => ?_⟩
          rw [markThreadProcessed_threads]
          split <;> simp [hh]
      · cases h; exact ⟨fun _ h => h, fun _ h => h⟩
  · cases h
    refine ⟨fun id hh => ?_, fun _ h => h⟩
    rw [markTweetProcessed_lookup]
    split <;> simp [hh]



theorem except_bind_ok {α β : Type} (a : α) (f : α → Except String β) :
    ((Except.ok a : Except String α) >>= f) = f a := rfl

theorem except_bind_error {α β : Type} (e : String) (f : α → Except String β) :
    ((Except.error e : Except String α) >>= f) = .error e := rfl

theorem neutral_handleProj_id (fetchTweet : String → Except String Tweet)
    (p : TrackState) (r : TweetResult) (hne : NeutralRec fetchTweet p r) :
    handleProj fetchTweet p r = .ok p := by
  unfold handleProj
  rcases hne with herr | hproc | ⟨hmem, hrest⟩
  · rw [if_pos herr]
  · by_cases herr : r.Error.isSome = true
    · rw [if_pos herr]
    · rw [if_neg herr, if_pos hproc]
  · by_cases herr : r.Error.isSome = true
    · rw [if_pos herr]
    rw [if_neg herr]
    by_cases hproc : p.tracker.isProcessedTweet r.Tweet.ID = true
    · rw [if_pos hproc]
    rw [if_neg hproc, if_pos hmem]
    rcases hrest with hthr | hfno
    · rw [if_pos hthr]
    by_cases hthr : p.tracker.isProcessedThread r.Tweet.ConversationID = true
    · rw [if_pos hthr]
    rw [if_neg hthr]
    cases hf : fetchTweet r.Tweet.ConversationID with
    | error e => rfl
    | ok t =>
      dsimp only
      rw [if_neg (hfno t hf)]

theorem neutral_preserved (fetchTweet : String → Except String Tweet)
    (p p' : TrackState) (r q : TweetResult)
    (hne : NeutralRec fetchTweet p r) (h : handleProj fetchTweet p q = .ok p') :
    NeutralRec fetchTweet p' r := by
  obtain ⟨hmonoT, hmonoH⟩ := handleProj_tracker_mono fetchTweet p p' q h
  rcases hne with herr | hproc | ⟨hmem, hrest⟩
  · exact Or.inl herr
  · exact Or.inr (Or.inl (hmonoT _ hproc))
  · refine Or.inr (Or.inr ⟨hmem, ?_⟩)
    rcases hrest with hthr | hfno
    · exact Or.inl (hmonoH _ hthr)
    · exact Or.inr hfno

theorem neutral_established (fetchTweet : String → Except String Tweet)
    (hfok : FetchOk fetchTweet) (p p' : TrackState) (r : TweetResult)
    (h : handleProj fetchTweet p r = .ok p') :
    NeutralRec fetchTweet p' r := by
  unfold handleProj at h
  split_ifs at h with h1 h2 h3 h4
  · cases h; exact Or.inl h1
  · cases h; exact Or.inr (Or.inl h2)
  · cases h; exact Or.inr (Or.inr ⟨h3, Or.inl h4⟩)
  · revert h
    cases hf : fetchTweet r.Tweet.ConversationID with
    | error e =>
      intro h; cases h
      refine Or.inr (Or.inr ⟨h3, Or.inr fun t ht => ?_⟩)
      rw [hf] at ht; cases ht
    | ok t =>
      intro h
      dsimp only at h
      split_ifs at h with h5
      · revert h
        cases ho : p.outputTweets with
        | nil => intro h; cases h
        | cons x xs =>
          intro h; cases h
          refine Or.inr (Or.inr ⟨h3, Or.inl ?_⟩)
          show (p.tracker.markThreadProcessed t).processedThreads r.Tweet.ConversationID = true
          rw [markThreadProcessed_threads, if_pos (hfok _ _ hf).symm]
      · cases h
        refine Or.inr (Or.inr ⟨h3, Or.inr fun t2 ht2 => ?_⟩)
        rw [hf] at ht2
        cases ht2
        exact h5
  · cases h
    refine Or.inr (Or.inl ?_)
    show (p.tracker.markTweetProcessed r.Tweet.ID).processedTweets r.Tweet.ID = true
    rw [markTweetProcessed_lookup, if_pos rfl]

theorem neutral_foldlM (fetchTweet : String → Except String Tweet) (r : TweetResult) :
    ∀ (l : List TweetResult) (p p' : TrackState), NeutralRec fetchTweet p r →
      List.foldlM (handleProj fetchTweet) p l = .ok p' → NeutralRec fetchTweet p' r := by
  intro l
  induction l with
  | nil => intro p p' hne h; cases h; exact hne
  | cons q rest ih =>
    intro p p' hne h
    rw [List.foldlM_cons] at h
    cases hq : handleProj fetchTweet p q with
    | error e => rw [hq] at h; cases h
    | ok p1 =>
      rw [hq] at h
      exact ih p1 p' (neutral_preserved fetchTweet p p1 r q hne hq) h

/-- C3 (amended): delivering the same record twice — the second occurrence
anywhere after the first — yields the same output sequence as processing the
record once, for any run whose thread-detail fetch is deterministic and
returns the requested conversation's tweet on success. (The claim's further
assertion that the second occurrence is skipped by the dedup check fails
when the first occurrence produced no output; see the counterexample.) -/
theorem c3_duplicate_delivery_output_idempotent (accounts : List AccountInfo) (userID : String)
    (fetchTweet : String → Except String Tweet) (hfok : FetchOk fetchTweet)
    (xs ys zs : List TweetResult) (r : TweetResult) :
    (processTweets accounts fetchTweet userID (xs ++ r :: ys ++ r :: zs)).map
      (fun σ => σ.outputTweets)
      = (processTweets accounts fetchTweet userID (xs ++ r :: (ys ++ zs))).map
        (fun σ => σ.outputTweets) := by
  have key : (processTweets accounts fetchTweet userID (xs ++ r :: ys ++ r :: zs)).map projTrack
      = (processTweets accounts fetchTweet userID (xs ++ r :: (ys ++ zs))).map projTrack := by
    rw [processTweets, processTweets, foldlM_step_proj, foldlM_step_proj,
      List.foldlM_append, List.foldlM_append, List.foldlM_append]
    cases hxs : List.foldlM (handleProj fetchTweet)
        (projTrack (initialState accounts userID)) xs with
    | error e => simp only [except_bind_error]
    | ok p0 =>
      simp only [except_bind_ok]
      rw [List.foldlM_cons, List.foldlM_cons]
      cases hr : handleProj fetchTweet p0 r with
      | error e => simp only [except_bind_error]
      | ok p1 =>
        simp only [except_bind_ok]
        have hne1 : NeutralRec fetchTweet p1 r :=
          neutral_established fetchTweet hfok p0 p1 r hr
        rw [List.foldlM_append]
        cases hys : List.foldlM (handleProj fetchTweet) p1 ys with
        | error e => simp only [except_bind_error]
        | ok p2 =>
          simp only [except_bind_ok]
          have hne2 : NeutralRec fetchTweet p2 r :=
            neutral_foldlM fetchTweet r ys p1 p2 hne1 hys
          rw [List.foldlM_cons, neutral_handleProj_id fetchTweet p2 r hne2]
          simp only [except_bind_ok]
  have lift : ∀ (e1 e2 : Except String ScrapeState),
      e1.map projTrack = e2.map projTrack →
      e1.map (fun σ => σ.outputTweets) = e2.map (fun σ => σ.outputTweets) := by
    intro e1 e2 h
    cases e1 with
    | error a =>
      cases e2 with
      | error b => simpa [Except.map] using h
      | ok s => simp [Except.map] at h
    | ok s1 =>
      cases e2 with
      | error b => simp [Except.map] at h
      | ok s2 =>
        simp only [Except.map, Except.ok.injEq] at h ⊢
        calc s1.outputTweets = (projTrack s1).outputTweets := rfl
          _ = (projTrack s2).outputTweets := by rw [h]
          _ = s2.outputTweets := rfl
  exact lift _ _ key

theorem roundRobinCount_succ (k n i : Nat) (hn : 0 < n) (hi : i < n) :
    roundRobinCount (k + 1) n i
      = roundRobinCount k n i + (if i = k % n then 1 else 0) := by
  have hmod : k % n < n := Nat.mod_lt k hn
  have hdm : n * (k / n) + k % n = k := Nat.div_add_mod k n
  by_cases hend : k % n + 1 = n
  · have hk1 : k + 1 = n * (k / n + 1) := by rw [Nat.mul_succ]; omega
    have hd1 : (k + 1) / n = k / n + 1 := by rw [hk1, Nat.mul_div_cancel_left _ hn]
    have hm1 : (k + 1) % n = 0 := by rw [hk1, Nat.mul_mod_right]
    unfold roundRobinCount
    rw [hd1, hm1]
    split_ifs <;> omega
  · have hlt : k % n + 1 < n := by omega
    have hrw : k + 1 = (k % n + 1) + n * (k / n) := by omega
    have hd1 : (k + 1) / n = k / n := by
      rw [hrw, Nat.add_mul_div_left _ _ hn, Nat.div_eq_of_lt hlt, Nat.zero_add]
    have hm1 : (k + 1) % n = k % n + 1 := by
      rw [hrw, Nat.add_mul_mod_self_left, Nat.mod_eq_of_lt hlt]
    unfold roundRobinCount
    rw [hd1, hm1]
    split_ifs <;> omega

theorem sumCounts_increment (accounts : List AccountInfo) (calls : String → Nat) (tok : String) :
    sumCounts accounts (fun t => if t = tok then calls tok + 1 else calls t)
      = sumCounts accounts calls + (accounts.map (fun a => a.AuthToken)).count tok := by
  induction accounts with
  | nil => rfl
  | cons a rest ih =>
    simp only [sumCounts, List.map_cons, List.sum_cons] at ih ⊢
    rw [ih]
    by_cases h : a.AuthToken = tok
    · rw [if_pos h, h]
      simp [List.count_cons, h]
      omega
    · rw [if_neg h]
      simp [List.count_cons, h]
      omega

theorem sumCounts_zero (accounts : List AccountInfo) :
    sumCounts accounts (fun _ => 0) = 0 := by
  induction accounts with
  | nil => rfl
  | cons a rest ih => simp only [sumCounts, List.map_cons, List.sum_cons] at ih ⊢; omega

theorem paginationTick_currentAccount (σ : ScrapeState) :
    (paginationTick σ).currentAccount = σ.currentAccount := by
  simp only [paginationTick]; split <;> rfl

theorem paginationTick_accountCalls (σ : ScrapeState) :
    (paginationTick σ).counter.AccountCalls = σ.counter.AccountCalls := by
  simp only [paginationTick]; split <;> rfl

theorem handleRecord_rotation_fields (fetchTweet : String → Except String Tweet)
    (σ : ScrapeState) (r : TweetResult) (σ' : ScrapeState)
    (h : handleRecord fetchTweet σ r = .ok σ') :
    σ'.currentAccount = σ.currentAccount ∧
    σ'.counter.AccountCalls = σ.counter.AccountCalls := by
  unfold handleRecord at h
  split_ifs at h with h1 h2 h3 h4
  · cases h; exact ⟨rfl, rfl⟩
  · cases h; exact ⟨rfl, rfl⟩
  · cases h; exact ⟨rfl, rfl⟩
  · revert h
    cases hf : fetchTweet r.Tweet.ConversationID with
    | error e => intro h; cases h; exact ⟨rfl, rfl⟩
    | ok t =>
      intro h
      dsimp only at h
      split_ifs at h with h5
      · revert h
        cases ho : σ.outputTweets with
        | nil => intro h; cases h
        | cons x xs => intro h; cases h; exact ⟨rfl, rfl⟩
      · cases h; exact ⟨rfl, rfl⟩
  · cases h; exact ⟨rfl, rfl⟩

theorem accInv_init (accounts : List AccountInfo) (userID : String) :
    AccInv accounts 0 (initialState accounts userID) := by
  refine ⟨by simp [initialState], fun i hi => ?_, ?_⟩
  · simp [initialState, NewAPICallCounter, roundRobinCount]
  · show sumCounts accounts (fun _ => 0) = 0
    exact sumCounts_zero accounts

theorem accInv_step (accounts : List AccountInfo) (fetchTweet : String → Except String Tweet)
    (hn : 0 < accounts.length)
    (hnd : (accounts.map (fun a => a.AuthToken)).Nodup)
    (k : Nat) (σ σ' : ScrapeState) (r : TweetResult)
    (hInv : AccInv accounts k σ) (hstep : step accounts fetchTweet σ r = .ok σ') :
    AccInv accounts (k + 1) σ' := by
  obtain ⟨hcur, hcalls, hsum⟩ := hInv
  have hmod : k % accounts.length < accounts.length := Nat.mod_lt k hn
  -- the state after rotation
  set σr := rotateAccount accounts (paginationTick σ) with hσr
  obtain ⟨hc', ha'⟩ := handleRecord_rotation_fields fetchTweet σr r σ' hstep
  -- the token charged this iteration
  have hgetD : accounts.getD (paginationTick σ).currentAccount defaultAccount
      = accounts[k % accounts.length] := by
    rw [paginationTick_currentAccount, hcur]
    exact List.getD_eq_getElem accounts defaultAccount hmod
  have hcurr : σr.currentAccount = (k + 1) % accounts.length := by
    rw [hσr]
    show ((paginationTick σ).currentAccount + 1) % accounts.length = _
    rw [paginationTick_currentAccount, hcur, Nat.mod_add_mod]
  have hcallsr : σr.counter.AccountCalls = fun t =>
      if t = accounts[k % accounts.length].AuthToken
      then (paginationTick σ).counter.AccountCalls accounts[k % accounts.length].AuthToken + 1
      else (paginationTick σ).counter.AccountCalls t := by
    rw [hσr]
    show ((paginationTick σ).counter.IncrementAccount
        (accounts.getD (paginationTick σ).currentAccount defaultAccount).AuthToken).AccountCalls = _
    rw [hgetD]
    rfl
  refine ⟨by rw [hc', hcurr], fun i hi => ?_, ?_⟩
  · rw [ha', hcallsr]
    simp only [paginationTick_accountCalls]
    by_cases hiK : i = k % accounts.length
    · have htok : accounts[i].AuthToken = accounts[k % accounts.length].AuthToken := by
        subst hiK; rfl
      rw [if_pos htok, hcalls (k % accounts.length) hmod,
        roundRobinCount_succ k accounts.length i hn hi, if_pos hiK, hiK]
    · have htokne : accounts[i].AuthToken ≠ accounts[k % accounts.length].AuthToken := by
        intro he
        apply hiK
        have hi2 : i < (accounts.map (fun a => a.AuthToken)).length := by simpa using hi
        have hm2 : k % accounts.length < (accounts.map (fun a => a.AuthToken)).length := by
          simpa using hmod
        have h1 : (accounts.map (fun a => a.AuthToken))[i]
            = (accounts.map (fun a => a.AuthToken))[k % accounts.length] := by
          rw [List.getElem_map, List.getElem_map]
          exact he
        exact (List.Nodup.getElem_inj_iff hnd).mp h1
      rw [if_neg htokne, hcalls i hi, roundRobinCount_succ k accounts.length i hn hi,
        if_neg hiK]
      omega
  · rw [ha', hcallsr]
    simp only [paginationTick_accountCalls]
    rw [sumCounts_increment, hsum]
    have hmem : accounts[k % accounts.length].AuthToken
        ∈ accounts.map (fun a => a.AuthToken) :=
      List.mem_map_of_mem _ (accounts.getElem_mem hmod)
    rw [List.count_eq_one_of_mem hnd hmem]

theorem accInv_fold (accounts : List AccountInfo) (fetchTweet : String → Except String Tweet)
    (hn : 0 < accounts.length)
    (hnd : (accounts.map (fun a => a.AuthToken)).Nodup) :
    ∀ (l : List TweetResult) (k : Nat) (σ σ' : ScrapeState),
      AccInv accounts k σ → List.foldlM (step accounts fetchTweet) σ l = .ok σ' →
      AccInv accounts (k + l.length) σ' := by
  intro l
  induction l with
  | nil => intro k σ σ' hInv h; cases h; exact hInv
  | cons r rest ih =>
    intro k σ σ' hInv h
    rw [List.foldlM_cons] at h
    cases hs : step accounts fetchTweet σ r with
    | error e => rw [hs] at h; cases h
    | ok σ1 =>
      rw [hs] at h
      have h1 := accInv_step accounts fetchTweet hn hnd k σ σ1 r hInv hs
      have h2 := ih (k + 1) σ1 σ' h1 h
      rw [List.length_cons]
      have : k + 1 + rest.length = k + (rest.length + 1) := by omega
      rw [← this]
      exact h2

/-- C6 (amended): after the loop processes M records over N sessions with
pairwise-distinct auth tokens (M at least N), the per-session counts are
round-robin fair — any two differ by at most 1 — and their sum is M, the
number of loop iterations (the counterexample shows this sum differs from
the global timeline-plus-thread tally, which counts other events). -/
theorem c6_rotation_fairness (accounts : List AccountInfo) (userID : String)
    (fetchTweet : String → Except String Tweet) (records : List TweetResult)
    (hne : accounts ≠ [])
    (hnd : (accounts.map (fun a => a.AuthToken)).Nodup)
    (hM : accounts.length ≤ records.length)
    (hok : (processTweets accounts fetchTweet userID records).isOk = true) :
    (∀ i j, (hi : i < accounts.length) → (hj : j < accounts.length) →
      (finalScrapeState accounts fetchTweet userID records).counter.AccountCalls
          (accounts[i].AuthToken)
        ≤ (finalScrapeState accounts fetchTweet userID records).counter.AccountCalls
            (accounts[j].AuthToken) + 1)
    ∧ sumCounts accounts
        (finalScrapeState accounts fetchTweet userID records).counter.AccountCalls
      = records.length := by
  have hn : 0 < accounts.length := List.length_pos.mpr hne
  obtain ⟨σf, hσf⟩ : ∃ σf, processTweets accounts fetchTweet userID records = .ok σf := by
    cases hp : processTweets accounts fetchTweet userID records with
    | ok σf => exact ⟨σf, rfl⟩
    | error e => rw [hp] at hok; simp [Except.isOk, Except.toBool] at hok
  have hfinal : finalScrapeState accounts fetchTweet userID records = σf := by
    unfold finalScrapeState
    rw [hσf]
  have hInv := accInv_fold accounts fetchTweet hn hnd records 0
    (initialState accounts userID) σf (accInv_init accounts userID) hσf
  rw [Nat.zero_add] at hInv
  obtain ⟨hcur, hcalls, hsum⟩ := hInv
  constructor
  · intro i j hi hj
    rw [hfinal, hcalls i hi, hcalls j hj]
    unfold roundRobinCount
    split_ifs <;> omega
  · rw [hfinal]
    exact hsum

/-- C3 witness: the standalone record "A" delivered twice with an
always-failing fetch (vacuously well-behaved) gives the same output as one
delivery. -/
theorem c3_duplicate_delivery_output_idempotent_witness :
    (processTweets sampleAccounts fetchAlwaysFails "uid"
        [sampleRecord "A" "A", sampleRecord "A" "A"]).map (fun σ => σ.outputTweets)
      = (processTweets sampleAccounts fetchAlwaysFails "uid"
          [sampleRecord "A" "A"]).map (fun σ => σ.outputTweets) :=
  c3_duplicate_delivery_output_idempotent sampleAccounts "uid" fetchAlwaysFails
    (fun _ _ h => nomatch h) [] [] [] (sampleRecord "A" "A")

/-- C4 witness: root "C" standalone followed by member "B" of "C" with an
always-failing fetch: the root's standalone unit is in the final output. -/
theorem c4_failed_fetch_keeps_standalone_root_witness :
    (processTweets sampleAccounts fetchAlwaysFails "uid"
        [sampleRecord "C" "C", sampleRecord "B" "C"]).map
      (fun σ => standaloneKept σ.outputTweets (sampleRecord "C" "C").Tweet.ID) = .ok true :=
  c4_failed_fetch_keeps_standalone_root sampleAccounts "uid" fetchAlwaysFails
    [sampleRecord "C" "C", sampleRecord "B" "C"]
    (sampleRecord "C" "C") (sampleRecord "B" "C")
    (fun _ _ h => nomatch h)
    (by decide) rfl (by decide) rfl rfl
    (by decide) rfl rfl

/-- C6 witness: two sessions with distinct tokens and three standalone
records: counts 2 and 1 differ by at most one and sum to 3. -/
theorem c6_rotation_fairness_witness :
    ((finalScrapeState sampleAccountsPair fetchAlwaysFails "uid"
        [sampleRecord "A" "A", sampleRecord "B" "B", sampleRecord "E" "E"]).counter.AccountCalls
        "tokA"
      ≤ (finalScrapeState sampleAccountsPair fetchAlwaysFails "uid"
          [sampleRecord "A" "A", sampleRecord "B" "B",
           sampleRecord "E" "E"]).counter.AccountCalls "tokB" + 1)
    ∧ sumCounts sampleAccountsPair
        (finalScrapeState sampleAccountsPair fetchAlwaysFails "uid"
          [sampleRecord "A" "A", sampleRecord "B" "B",
           sampleRecord "E" "E"]).counter.AccountCalls
      = 3 :=
  ⟨(c6_rotation_fairness sampleAccountsPair "uid" fetchAlwaysFails
      [sampleRecord "A" "A", sampleRecord "B" "B", sampleRecord "E" "E"]
      (by decide) (by decide) (by decide) rfl).1 0 1 (by decide) (by decide),
   (c6_rotation_fairness sampleAccountsPair "uid" fetchAlwaysFails
      [sampleRecord "A" "A", sampleRecord "B" "B", sampleRecord "E" "E"]
      (by decide) (by decide) (by decide) rfl).2⟩

end TwitterScrape
